import Mathlib

/-
Shallow embedding of src/main/printer_handler.c (ESP32_PrinterBridge).

External collaborators (ESP-IDF USB host stack, FreeRTOS) are modelled as
oracle inputs: descriptor-parse outcomes appear as Option values in the
descriptor structures, semaphore creation as a Bool oracle indexed by call
count, and the host-stack return codes of claim/alloc/submit as fields of
an environment record. Opaque handles are Option Nat (none = NULL pointer);
the binary semaphore field is a Bool recording non-NULL-ness, which is the
only property of it the C code reads.
-/

namespace PrinterBridge

def ESP_OK : Nat := 0

def ESP_ERR_INVALID_STATE : Nat := 0x103

def ESP_ERR_TIMEOUT : Nat := 0x107

def USB_CLASS_PRINTER : Nat := 0x07

def USB_PRINTER_PROTOCOL_UNI : Nat := 0x01

def USB_PRINTER_PROTOCOL_BI : Nat := 0x02

def USB_PRINTER_PROTOCOL_1284 : Nat := 0x03

def USB_BM_ATTRIBUTES_XFERTYPE_MASK : Nat := 0x03

def USB_BM_ATTRIBUTES_XFER_BULK : Nat := 0x02

def USB_B_ENDPOINT_ADDRESS_EP_DIR_MASK : Nat := 0x80

/-- In the usb_types_ch9 enum, USB_TRANSFER_STATUS_COMPLETED is member 0. -/
def USB_TRANSFER_STATUS_COMPLETED : Nat := 0

/-- Endpoint descriptor: the two fields the code reads. Bytes as Nat < 256. -/
structure usb_ep_desc_t where
  bEndpointAddress : Nat
  bmAttributes : Nat
deriving DecidableEq

/-- Interface descriptor. The endpoints list holds the outcome of
usb_parse_endpoint_descriptor_by_index for each index 0..bNumEndpoints-1
(none = parse failure, which the C loop skips with continue);
bNumEndpoints is its length. -/
structure usb_intf_desc_t where
  bInterfaceClass : Nat
  bInterfaceSubClass : Nat
  bInterfaceProtocol : Nat
  endpoints : List (Option usb_ep_desc_t)
deriving DecidableEq

/-- Configuration descriptor: the outcome of usb_parse_interface_descriptor
for each index 0..bNumInterfaces-1 (none = parse failure, skipped). -/
structure usb_config_desc_t where
  interfaces : List (Option usb_intf_desc_t)
deriving DecidableEq

/-- The printer_device_t record. Handles are Option Nat (none = NULL);
transfer_done_sem is true iff the SemaphoreHandle_t is non-NULL. -/
structure printer_device_t where
  dev_hdl : Option Nat
  client_hdl : Option Nat
  interface_number : Nat
  bulk_out_ep : Nat
  bulk_in_ep : Nat
  transfer_done_sem : Bool
deriving DecidableEq

/-- static printer_device_t saved_printer; - zero initialized at load. -/
def initial_saved_printer : printer_device_t :=
  { dev_hdl := none, client_hdl := none, interface_number := 0,
    bulk_out_ep := 0, bulk_in_ep := 0, transfer_done_sem := false }

/-- is_printer_interface: returns bInterfaceProtocol when the class byte
is USB_CLASS_PRINTER, else 0. The caller treats the nonzero-ness of this
uint8_t return as the printer classification. -/
def is_printer_interface (intf_desc : usb_intf_desc_t) : Nat :=
  if intf_desc.bInterfaceClass = USB_CLASS_PRINTER then
    intf_desc.bInterfaceProtocol
  else
    0

/-- The endpoint loop of save_printer_endpoint_details: accumulator is
(bulk_out_ep, bulk_in_ep), both starting at 0xFF; a parsed endpoint whose
transfer-type attribute bits equal BULK updates the IN slot when the
address direction bit is set, else the OUT slot; last writer wins. -/
def scan_endpoints : List (Option usb_ep_desc_t) → Nat × Nat → Nat × Nat
  | [], acc => acc
  | none :: rest, acc => scan_endpoints rest acc
  | some e :: rest, acc =>
    if e.bmAttributes &&& USB_BM_ATTRIBUTES_XFERTYPE_MASK
        = USB_BM_ATTRIBUTES_XFER_BULK then
      if e.bEndpointAddress &&& USB_B_ENDPOINT_ADDRESS_EP_DIR_MASK ≠ 0 then
        scan_endpoints rest (acc.1, e.bEndpointAddress)
      else
        scan_endpoints rest (e.bEndpointAddress, acc.2)
    else
      scan_endpoints rest acc

/-- save_printer_endpoint_details. semOk is the oracle for
xSemaphoreCreateBinary (indexed by how many creation calls happened so
far); returns the new saved_printer and the new creation-call count.
The function builds a local record, aborts (leaving saved unchanged)
when no bulk OUT endpoint was found or semaphore creation fails, and
only then assigns the global. -/
def save_printer_endpoint_details (dev_hdl client_hdl : Nat)
    (interface_num : Nat) (intf_desc : usb_intf_desc_t)
    (semOk : Nat → Bool) (semCalls : Nat) (saved : printer_device_t) :
    printer_device_t × Nat :=
  let eps := scan_endpoints intf_desc.endpoints (0xFF, 0xFF)
  if eps.1 = 0xFF then
    (saved, semCalls)
  else if semOk semCalls then
    ({ dev_hdl := some dev_hdl, client_hdl := some client_hdl,
       interface_number := interface_num, bulk_out_ep := eps.1,
       bulk_in_ep := eps.2, transfer_done_sem := true }, semCalls + 1)
  else
    (saved, semCalls + 1)

/-- The interface loop of check_device_for_printer_interfaces: walks the
parse outcomes with the running index, the is_printer flag, the semaphore
creation-call count and the saved_printer state. -/
def check_loop (d c : Nat) (semOk : Nat → Bool) :
    List (Option usb_intf_desc_t) → Nat → Bool → Nat → printer_device_t →
    Bool × printer_device_t
  | [], _, is_printer, _, saved => (is_printer, saved)
  | none :: rest, i, is_printer, semCalls, saved =>
      check_loop d c semOk rest (i + 1) is_printer semCalls saved
  | some intf :: rest, i, is_printer, semCalls, saved =>
      if is_printer_interface intf ≠ 0 then
        check_loop d c semOk rest (i + 1) true
          (save_printer_endpoint_details d c i intf semOk semCalls saved).2
          (save_printer_endpoint_details d c i intf semOk semCalls saved).1
      else
        check_loop d c semOk rest (i + 1) is_printer semCalls saved

/-- check_device_for_printer_interfaces. The config argument is the
outcome of usb_host_get_active_config_descriptor (none = any non-ESP_OK
return). Result: the returned bool and the saved_printer state after the
call. -/
def check_device_for_printer_interfaces (dev_hdl client_hdl : Option Nat)
    (config : Option usb_config_desc_t) (semOk : Nat → Bool)
    (saved : printer_device_t) : Bool × printer_device_t :=
  match dev_hdl with
  | none => (false, saved)
  | some d =>
    match client_hdl with
    | none => (false, saved)
    | some c =>
      match config with
      | none => (false, saved)
      | some cfg => check_loop d c semOk cfg.interfaces 0 false 0 saved

/-- Host-stack and RTOS calls send_print_job and the completion callback
can emit, in program order. -/
inductive HostEv where
  | claimIntf
  | releaseIntf
  | transferAlloc
  | transferFree
  | transferSubmit
  | semGive
deriving DecidableEq

/-- Oracle for one send_print_job run: return codes of the three
host-stack calls, whether the completion callback eventually fires,
whether it fires before the 5000 ms semaphore timeout, and the transfer
status it observes. -/
structure SendEnv where
  claimRet : Nat
  allocRet : Nat
  submitRet : Nat
  callbackFires : Bool
  callbackInTime : Bool
  callbackStatus : Nat
deriving DecidableEq

/-- send_print_job: returns the esp_err_t value and the list of
host-stack calls the function itself makes (the asynchronous callback is
modelled separately). The code reads saved_printer and never writes it. -/
def send_print_job (saved : printer_device_t) (env : SendEnv) :
    Nat × List HostEv :=
  if saved.dev_hdl = none then
    (ESP_ERR_INVALID_STATE, [])
  else if saved.bulk_out_ep = 0xFF then
    (ESP_ERR_INVALID_STATE, [])
  else if env.claimRet ≠ ESP_OK then
    (env.claimRet, [HostEv.claimIntf])
  else if env.allocRet ≠ ESP_OK then
    (env.allocRet, [HostEv.claimIntf, HostEv.transferAlloc, HostEv.releaseIntf])
  else if env.submitRet ≠ ESP_OK then
    (env.submitRet, [HostEv.claimIntf, HostEv.transferAlloc,
      HostEv.transferSubmit, HostEv.transferFree, HostEv.releaseIntf])
  else if env.callbackFires && env.callbackInTime then
    (ESP_OK, [HostEv.claimIntf, HostEv.transferAlloc, HostEv.transferSubmit])
  else
    (ESP_ERR_TIMEOUT, [HostEv.claimIntf, HostEv.transferAlloc,
      HostEv.transferSubmit, HostEv.releaseIntf])

/-- print_transfer_callback: frees the transfer, releases the interface,
and gives the semaphore when it is non-NULL; the transfer status only
selects a log line. -/
def print_transfer_callback (saved : printer_device_t) (_status : Nat) :
    List HostEv :=
  [HostEv.transferFree, HostEv.releaseIntf] ++
    (if saved.transfer_done_sem then [HostEv.semGive] else [])

/-- True when the run got past both precondition checks and all three
host-stack calls returned ESP_OK, i.e. a transfer is in flight and the
callback will eventually run exactly once. -/
def submit_succeeded (saved : printer_device_t) (env : SendEnv) : Bool :=
  saved.dev_hdl.isSome && (saved.bulk_out_ep != 0xFF) &&
  (env.claimRet == ESP_OK) && (env.allocRet == ESP_OK) &&
  (env.submitRet == ESP_OK)

/-- A whole job: the send_print_job call plus, when a transfer was
submitted and the callback fires (possibly after the timeout), the
events of the callback appended. -/
def job_run (saved : printer_device_t) (env : SendEnv) :
    Nat × List HostEv :=
  let r := send_print_job saved env
  if submit_succeeded saved env && env.callbackFires then
    (r.1, r.2 ++ print_transfer_callback saved env.callbackStatus)
  else
    r

def count_releases (evs : List HostEv) : Nat :=
  evs.count HostEv.releaseIntf

/-- A parse slot holds an interface whose class byte is the printer class. -/
def interface_is_printer_class : Option usb_intf_desc_t → Bool
  | none => false
  | some i => i.bInterfaceClass == USB_CLASS_PRINTER

/-- Some parse slot of the configuration has the printer class byte. -/
def has_printer_class_interface (cfg : usb_config_desc_t) : Bool :=
  cfg.interfaces.any interface_is_printer_class

/-- A parse slot holds a bulk endpoint with the direction bit clear. -/
def ep_is_bulk_out : Option usb_ep_desc_t → Bool
  | none => false
  | some e =>
    (e.bmAttributes &&& USB_BM_ATTRIBUTES_XFERTYPE_MASK
      == USB_BM_ATTRIBUTES_XFER_BULK) &&
    (e.bEndpointAddress &&& USB_B_ENDPOINT_ADDRESS_EP_DIR_MASK == 0)

/-- A parse slot holds a bulk endpoint with the direction bit set. -/
def ep_is_bulk_in : Option usb_ep_desc_t → Bool
  | none => false
  | some e =>
    (e.bmAttributes &&& USB_BM_ATTRIBUTES_XFERTYPE_MASK
      == USB_BM_ATTRIBUTES_XFER_BULK) &&
    (e.bEndpointAddress &&& USB_B_ENDPOINT_ADDRESS_EP_DIR_MASK != 0)

/-- The record invariant of claim C9: a usable record (bulk_out_ep not
the 0xFF sentinel) has a non-NULL transfer semaphore. -/
def printer_record_inv (st : printer_device_t) : Prop :=
  st.bulk_out_ep ≠ 0xFF → st.transfer_done_sem = true

/-- Concrete input for C1: the only interface is printer-class with a
bulk-OUT endpoint at address 0x01, but its protocol byte is 0x00. -/
def c1_intf : usb_intf_desc_t :=
  { bInterfaceClass := 0x07, bInterfaceSubClass := 0x01,
    bInterfaceProtocol := 0x00,
    endpoints := [some { bEndpointAddress := 0x01, bmAttributes := 0x02 }] }

def c1_cfg : usb_config_desc_t := { interfaces := [some c1_intf] }

/-- Concrete saved record for C2: a usable printer discovered earlier. -/
def c2_saved : printer_device_t :=
  { dev_hdl := some 1, client_hdl := some 2, interface_number := 0,
    bulk_out_ep := 0x01, bulk_in_ep := 0xFF, transfer_done_sem := true }

/-- Concrete run for C2: all host-stack calls succeed, the callback fires
within the timeout and observes transfer status 1 (not Completed). -/
def c2_env : SendEnv :=
  { claimRet := 0, allocRet := 0, submitRet := 0,
    callbackFires := true, callbackInTime := true, callbackStatus := 1 }

def c3_saved : printer_device_t :=
  { dev_hdl := some 1, client_hdl := some 2, interface_number := 0,
    bulk_out_ep := 0x01, bulk_in_ep := 0xFF, transfer_done_sem := true }

/-- Concrete run for C3: all host-stack calls succeed, the callback fires
only after the 5000 ms semaphore wait has expired. -/
def c3_env : SendEnv :=
  { claimRet := 0, allocRet := 0, submitRet := 0,
    callbackFires := true, callbackInTime := false, callbackStatus := 0 }

def c5_env : SendEnv :=
  { claimRet := 0, allocRet := 0, submitRet := 0,
    callbackFires := false, callbackInTime := false, callbackStatus := 0 }

def c5_saved_unusable : printer_device_t :=
  { dev_hdl := some 1, client_hdl := some 2, interface_number := 0,
    bulk_out_ep := 0xFF, bulk_in_ep := 0xFF, transfer_done_sem := false }

def c6_saved : printer_device_t :=
  { dev_hdl := some 1, client_hdl := some 2, interface_number := 0,
    bulk_out_ep := 0x01, bulk_in_ep := 0xFF, transfer_done_sem := true }

def c6_env_alloc : SendEnv :=
  { claimRet := 0, allocRet := 1, submitRet := 0,
    callbackFires := false, callbackInTime := false, callbackStatus := 0 }

def c6_env_submit : SendEnv :=
  { claimRet := 0, allocRet := 0, submitRet := 2,
    callbackFires := false, callbackInTime := false, callbackStatus := 0 }

/-- Interface literal used by the C4 theorem: printer class, protocol 0. -/
def c4_intf_p0 : usb_intf_desc_t :=
  { bInterfaceClass := USB_CLASS_PRINTER, bInterfaceSubClass := 0x01,
    bInterfaceProtocol := 0x00, endpoints := [] }

/-- Interface literal used by the C4 theorem: printer class, protocol 1. -/
def c4_intf_p1 : usb_intf_desc_t :=
  { bInterfaceClass := USB_CLASS_PRINTER, bInterfaceSubClass := 0x01,
    bInterfaceProtocol := USB_PRINTER_PROTOCOL_UNI, endpoints := [] }

def c7_intf : usb_intf_desc_t :=
  { bInterfaceClass := 0x07, bInterfaceSubClass := 0x01,
    bInterfaceProtocol := 0x00, endpoints := [] }

def c7_cfg : usb_config_desc_t := { interfaces := [some c7_intf] }

/-- A non-printer (CDC-class) interface with a bulk-OUT endpoint. -/
def c8_intf : usb_intf_desc_t :=
  { bInterfaceClass := 0x02, bInterfaceSubClass := 0x00,
    bInterfaceProtocol := 0x00,
    endpoints := [some { bEndpointAddress := 0x01, bmAttributes := 0x02 }] }

def c8_cfg : usb_config_desc_t := { interfaces := [some c8_intf, none] }

def c8_saved : printer_device_t :=
  { dev_hdl := some 9, client_hdl := some 8, interface_number := 3,
    bulk_out_ep := 0x02, bulk_in_ep := 0x83, transfer_done_sem := true }

def c9_saved : printer_device_t :=
  { dev_hdl := none, client_hdl := none, interface_number := 0,
    bulk_out_ep := 0xFF, bulk_in_ep := 0xFF, transfer_done_sem := false }

/-- A bidirectional printer interface with bulk-OUT 0x01 and bulk-IN 0x82. -/
def c9_intf : usb_intf_desc_t :=
  { bInterfaceClass := 0x07, bInterfaceSubClass := 0x01,
    bInterfaceProtocol := 0x02,
    endpoints := [some { bEndpointAddress := 0x01, bmAttributes := 0x02 },
      some { bEndpointAddress := 0x82, bmAttributes := 0x02 }] }

def c9_cfg : usb_config_desc_t := { interfaces := [some c9_intf] }

instance (st : printer_device_t) : Decidable (printer_record_inv st) :=
  inferInstanceAs
    (Decidable (st.bulk_out_ep ≠ 0xFF → st.transfer_done_sem = true))

/-- Concrete interface for C10: printer class but only a bulk-IN endpoint,
so the endpoint scan finds no bulk-OUT address. -/
def c10_intf : usb_intf_desc_t :=
  { bInterfaceClass := 0x07, bInterfaceSubClass := 0x01,
    bInterfaceProtocol := 0x01,
    endpoints := [some { bEndpointAddress := 0x82, bmAttributes := 0x02 }, none] }

def c10_saved : printer_device_t :=
  { dev_hdl := some 4, client_hdl := some 5, interface_number := 1,
    bulk_out_ep := 0x01, bulk_in_ep := 0xFF, transfer_done_sem := true }

/-- A list of parse slots none of which carries the printer class byte
leaves the interface loop with its flag and state untouched. -/
theorem check_loop_no_printer (d c : Nat) (semOk : Nat → Bool)
    (l : List (Option usb_intf_desc_t))
    (h : ∀ o ∈ l, interface_is_printer_class o = false) :
    ∀ (i : Nat) (b : Bool) (calls : Nat) (saved : printer_device_t),
    check_loop d c semOk l i b calls saved = (b, saved) := by
  induction l with
  | nil => intro i b calls saved; rfl
  | cons o rest ih =>
    intro i b calls saved
    have hrest : ∀ o ∈ rest, interface_is_printer_class o = false :=
      fun o ho => h o (List.mem_cons_of_mem _ ho)
    cases o with
    | none => exact ih hrest (i + 1) b calls saved
    | some intf =>
      have hcls := h (some intf) (List.mem_cons_self _ _)
      simp only [interface_is_printer_class, beq_eq_false_iff_ne, ne_eq] at hcls
      have hz : is_printer_interface intf = 0 := by
        simp [is_printer_interface, hcls]
      simp only [check_loop, hz, ne_eq, not_true_eq_false, if_false,
        not_false_eq_true]
      exact ih hrest (i + 1) b calls saved

/-- save_printer_endpoint_details never breaks the usable-implies-sem
invariant: it either leaves the record alone or commits a record whose
semaphore field is non-NULL. -/
theorem save_preserves_record_inv (d c i : Nat) (intf : usb_intf_desc_t)
    (semOk : Nat → Bool) (calls : Nat) (saved : printer_device_t)
    (h : printer_record_inv saved) :
    printer_record_inv
      (save_printer_endpoint_details d c i intf semOk calls saved).1 := by
  unfold save_printer_endpoint_details
  by_cases h1 : (scan_endpoints intf.endpoints (0xFF, 0xFF)).1 = 0xFF
  · simpa [h1] using h
  · by_cases h2 : semOk calls = true
    · simp [h1, h2, printer_record_inv]
    · simpa [h1, h2] using h

/-- The interface loop preserves the usable-implies-sem invariant. -/
theorem check_loop_preserves_record_inv (d c : Nat) (semOk : Nat → Bool)
    (l : List (Option usb_intf_desc_t)) :
    ∀ (i : Nat) (b : Bool) (calls : Nat) (saved : printer_device_t),
    printer_record_inv saved →
    printer_record_inv (check_loop d c semOk l i b calls saved).2 := by
  induction l with
  | nil => intro i b calls saved h; exact h
  | cons o rest ih =>
    intro i b calls saved h
    cases o with
    | none => exact ih (i + 1) b calls saved h
    | some intf =>
      by_cases hp : is_printer_interface intf ≠ 0
      · simp only [check_loop]
        rw [if_pos hp]
        exact ih (i + 1) true
          (save_printer_endpoint_details d c i intf semOk calls saved).2
          (save_printer_endpoint_details d c i intf semOk calls saved).1
          (save_preserves_record_inv d c i intf semOk calls saved h)
      · simp only [check_loop]
        rw [if_neg hp]
        exact ih (i + 1) b calls saved h

/-- A list of endpoint parse slots with no bulk-OUT endpoint leaves the
OUT slot of the accumulator untouched. -/
theorem scan_endpoints_no_out (l : List (Option usb_ep_desc_t))
    (h : ∀ o ∈ l, ep_is_bulk_out o = false) :
    ∀ acc : Nat × Nat, (scan_endpoints l acc).1 = acc.1 := by
  induction l with
  | nil => intro acc; rfl
  | cons o rest ih =>
    intro acc
    have hrest : ∀ o ∈ rest, ep_is_bulk_out o = false :=
      fun o ho => h o (List.mem_cons_of_mem _ ho)
    cases o with
    | none => exact ih hrest acc
    | some e =>
      have he := h (some e) (List.mem_cons_self _ _)
      simp only [ep_is_bulk_out, Bool.and_eq_false_iff, beq_eq_false_iff_ne,
        ne_eq] at he
      by_cases hb : e.bmAttributes &&& USB_BM_ATTRIBUTES_XFERTYPE_MASK
          = USB_BM_ATTRIBUTES_XFER_BULK
      · have hdir : e.bEndpointAddress &&& USB_B_ENDPOINT_ADDRESS_EP_DIR_MASK
            ≠ 0 := by
          rcases he with he | he
          · exact absurd hb he
          · exact he
        simp only [scan_endpoints]
        rw [if_pos hb, if_pos hdir]
        exact ih hrest (acc.1, e.bEndpointAddress)
      · simp only [scan_endpoints]
        rw [if_neg hb]
        exact ih hrest acc

/-- C1: the spec expects that a configuration whose single interface has
class 0x07 and a bulk-OUT endpoint scans to true with a usable record.
The code refutes this when the protocol byte is 0x00: is_printer_interface
returns the protocol, the caller treats 0 as "not a printer", so the scan
returns false and saves nothing. -/
theorem c1_scan_rejects_protocol_zero_printer :
    interface_is_printer_class (some c1_intf) = true ∧
    c1_intf.endpoints.any ep_is_bulk_out = true ∧
    check_device_for_printer_interfaces (some 1) (some 2) (some c1_cfg)
      (fun _ => true) initial_saved_printer = (false, initial_saved_printer) := by
  decide

/-- C2: the spec requires success only when the callback recorded the
Completed status; the code returns ESP_OK whenever the semaphore arrives
in time, here with callback status 1 (not Completed). -/
theorem c2_ok_despite_failed_transfer_status :
    c2_env.callbackStatus ≠ USB_TRANSFER_STATUS_COMPLETED ∧
    c2_env.callbackFires = true ∧ c2_env.callbackInTime = true ∧
    (job_run c2_saved c2_env).1 = ESP_OK := by
  decide

/-- C3: the spec requires at most one interface release per claim on the
timeout path; the code releases once in the timeout branch of
send_print_job and a second time in the late completion callback. -/
theorem c3_double_release_on_timeout :
    (send_print_job c3_saved c3_env).1 = ESP_ERR_TIMEOUT ∧
    count_releases (job_run c3_saved c3_env).2 = 2 := by
  decide

/-- C4: the spec says classification is bInterfaceClass = 0x07 alone; the
code also requires a nonzero protocol byte, because the caller tests the
returned protocol against 0. At class 0x07 and protocol 0x00 the
classifier yields 0 (treated as no match), while protocol 0x01 yields the
nonzero protocol. -/
theorem c4_classification_depends_on_protocol :
    c4_intf_p0.bInterfaceClass = USB_CLASS_PRINTER ∧
    is_printer_interface c4_intf_p0 = 0 ∧
    is_printer_interface c4_intf_p1 ≠ 0 := by
  decide

/-- C5: when no printer was saved (dev_hdl NULL) or the saved record is
unusable (bulk_out_ep = 0xFF), send_print_job returns
ESP_ERR_INVALID_STATE and performs no host-stack call at all. -/
theorem c5_not_ready_makes_no_host_calls (saved : printer_device_t)
    (env : SendEnv)
    (h : saved.dev_hdl = none ∨ saved.bulk_out_ep = 0xFF) :
    send_print_job saved env = (ESP_ERR_INVALID_STATE, []) := by
  unfold send_print_job
  rcases h with h | h
  · simp [h]
  · by_cases hd : saved.dev_hdl = none <;> simp [h, hd]

theorem c5_witness :
    send_print_job initial_saved_printer c5_env
      = (ESP_ERR_INVALID_STATE, []) ∧
    send_print_job c5_saved_unusable c5_env
      = (ESP_ERR_INVALID_STATE, []) :=
  ⟨c5_not_ready_makes_no_host_calls initial_saved_printer c5_env
      (Or.inl (by decide)),
   c5_not_ready_makes_no_host_calls c5_saved_unusable c5_env
      (Or.inr (by decide))⟩

/-- C6: past the preconditions and a successful claim, an allocation
failure releases the claimed interface before the error return, and a
submission failure frees the transfer and releases the interface before
the error return. -/
theorem c6_error_paths_release_resources (saved : printer_device_t)
    (env : SendEnv) (hd : saved.dev_hdl ≠ none)
    (hb : saved.bulk_out_ep ≠ 0xFF) (hc : env.claimRet = ESP_OK) :
    (env.allocRet ≠ ESP_OK →
      send_print_job saved env = (env.allocRet,
        [HostEv.claimIntf, HostEv.transferAlloc, HostEv.releaseIntf])) ∧
    (env.allocRet = ESP_OK → env.submitRet ≠ ESP_OK →
      send_print_job saved env = (env.submitRet,
        [HostEv.claimIntf, HostEv.transferAlloc, HostEv.transferSubmit,
         HostEv.transferFree, HostEv.releaseIntf])) := by
  unfold send_print_job
  constructor
  · intro ha
    simp [hd, hb, hc, ha]
  · intro ha hs
    simp [hd, hb, hc, ha, hs]

theorem c6_witness :
    send_print_job c6_saved c6_env_alloc = (1,
      [HostEv.claimIntf, HostEv.transferAlloc, HostEv.releaseIntf]) ∧
    send_print_job c6_saved c6_env_submit = (2,
      [HostEv.claimIntf, HostEv.transferAlloc, HostEv.transferSubmit,
       HostEv.transferFree, HostEv.releaseIntf]) :=
  ⟨(c6_error_paths_release_resources c6_saved c6_env_alloc (by decide)
      (by decide) (by decide)).1 (by decide),
   (c6_error_paths_release_resources c6_saved c6_env_submit (by decide)
      (by decide) (by decide)).2 (by decide) (by decide)⟩

/-- C7: the spec says the scan returns true iff some interface has class
0x07. The reverse direction fails in the code: c7_cfg has a class-0x07
interface (protocol 0x00) yet the scan returns false, because the caller
tests the protocol value returned by is_printer_interface against 0. -/
theorem c7_scan_false_despite_class_match :
    has_printer_class_interface c7_cfg = true ∧
    (check_device_for_printer_interfaces (some 1) (some 2) (some c7_cfg)
      (fun _ => true) initial_saved_printer).1 = false := by
  decide

/-- C8: a configuration with no class-0x07 interface scans to false and
leaves saved_printer exactly as it was, for every handle pair, semaphore
oracle and starting record. -/
theorem c8_no_printer_class_scan_is_frame (dev client : Option Nat)
    (cfg : usb_config_desc_t) (semOk : Nat → Bool)
    (saved : printer_device_t)
    (h : ∀ o ∈ cfg.interfaces, interface_is_printer_class o = false) :
    check_device_for_printer_interfaces dev client (some cfg) semOk saved
      = (false, saved) := by
  cases dev with
  | none => rfl
  | some d =>
    cases client with
    | none => rfl
    | some c =>
      exact check_loop_no_printer d c semOk cfg.interfaces h 0 false 0 saved

theorem c8_witness :
    (∀ o ∈ c8_cfg.interfaces, interface_is_printer_class o = false) ∧
    check_device_for_printer_interfaces (some 9) (some 8) (some c8_cfg)
      (fun _ => true) c8_saved = (false, c8_saved) :=
  ⟨by decide,
   c8_no_printer_class_scan_is_frame (some 9) (some 8) c8_cfg
      (fun _ => true) c8_saved (by decide)⟩

/-- C9: the scan, the only operation that writes saved_printer, preserves
the invariant that a usable record (bulk_out_ep not 0xFF) has a non-NULL
transfer semaphore: the save aborts before touching the global when
semaphore creation fails, and any committed record carries a semaphore. -/
theorem c9_scan_preserves_usable_sem_inv (dev client : Option Nat)
    (config : Option usb_config_desc_t) (semOk : Nat → Bool)
    (saved : printer_device_t) (h : printer_record_inv saved) :
    printer_record_inv
      (check_device_for_printer_interfaces dev client config semOk saved).2 := by
  cases dev with
  | none => exact h
  | some d =>
    cases client with
    | none => exact h
    | some c =>
      cases config with
      | none => exact h
      | some cfg =>
        exact check_loop_preserves_record_inv d c semOk cfg.interfaces
          0 false 0 saved h

theorem c9_witness :
    printer_record_inv c9_saved ∧
    printer_record_inv
      (check_device_for_printer_interfaces (some 1) (some 2) (some c9_cfg)
        (fun _ => true) c9_saved).2 :=
  ⟨by decide,
   c9_scan_preserves_usable_sem_inv (some 1) (some 2) (some c9_cfg)
      (fun _ => true) c9_saved (by decide)⟩

/-- C10: save_printer_endpoint_details leaves saved_printer entirely
unchanged when the interface has no bulk-OUT endpoint, and also when
semaphore creation fails: both abort paths return before the global
assignment, so a class-0x07 interface without bulk-OUT never clobbers an
earlier usable record. -/
theorem c10_save_aborts_without_touching_record (d c i : Nat)
    (intf : usb_intf_desc_t) (semOk : Nat → Bool) (calls : Nat)
    (saved : printer_device_t)
    (h : (∀ o ∈ intf.endpoints, ep_is_bulk_out o = false) ∨
      semOk calls = false) :
    (save_printer_endpoint_details d c i intf semOk calls saved).1
      = saved := by
  unfold save_printer_endpoint_details
  rcases h with h | h
  · have hout : (scan_endpoints intf.endpoints (0xFF, 0xFF)).1 = 0xFF :=
      scan_endpoints_no_out intf.endpoints h (0xFF, 0xFF)
    simp [hout]
  · by_cases h1 : (scan_endpoints intf.endpoints (0xFF, 0xFF)).1 = 0xFF
    · simp [h1]
    · simp [h1, h]

theorem c10_witness :
    ((∀ o ∈ c10_intf.endpoints, ep_is_bulk_out o = false) ∨
      (fun _ : Nat => true) 0 = false) ∧
    (save_printer_endpoint_details 4 5 1 c10_intf (fun _ => true) 0
      c10_saved).1 = c10_saved :=
  ⟨Or.inl (by decide),
   c10_save_aborts_without_touching_record 4 5 1 c10_intf (fun _ => true)
      0 c10_saved (Or.inl (by decide))⟩

end PrinterBridge
